import Mathlib

/-!
Verification of reqbench (src/reqbench.py) against its specification.

The embedding below translates the statistics aggregation performed by
ReqBench._request, the average computation of ReqBench.avg_data_received,
the file-backed data source of ReqBench._get_data_from_file together with
the loop of ReqBench.run, and the header initialisation of
ReqBench.__init__, into pure Lean definitions.  Durations are modelled
as natural numbers of milliseconds; the Python falsiness of None, 0 and
the zero timedelta is modelled explicitly.
-/

namespace Reqbench

/-- Python-level exceptions that the modelled code can raise.
zeroDivisionError models the unguarded division in avg_data_received;
typeError models range(None) in ReqBench.run; userException models
UserException, raised with the message Wrong file format when a data
file line fails to parse. -/
inductive PyErr where
  | zeroDivisionError
  | typeError
  | userException
deriving DecidableEq, Repr

/-- One fully resolved request attempt, as seen by ReqBench._request:
either the HTTP client raised before a response status was available
(transport), or a response with a status code and a body of bodyLen
bytes was obtained.  durMs is the wall-clock duration of the attempt in
milliseconds. -/
inductive Attempt where
  | transport (durMs : Nat)
  | response (status : Nat) (bodyLen : Nat) (durMs : Nat)
deriving DecidableEq, Repr

/-- The running statistics fields of a ReqBench instance
(ReqBench.__init__, lines 88 to 102 of src/reqbench.py).  The statuses
histogram maps a raw status code to the number of responses with that
code. -/
@[ext]
structure Stats where
  request_sent : Nat
  success : Nat
  errors : Nat
  data_received : Nat
  min_data_received : Option Nat
  max_data_received : Option Nat
  min_time_request : Option Nat
  max_time_request : Option Nat
  statuses : Nat → Nat

/-- The freshly initialised statistics of ReqBench.__init__: counters at
zero, minima and maxima unset (None), empty histogram. -/
def initStats : Stats :=
  { request_sent := 0, success := 0, errors := 0, data_received := 0,
    min_data_received := none, max_data_received := none,
    min_time_request := none, max_time_request := none,
    statuses := fun _ => 0 }

/-- Python update pattern: if not m or m > d: m = d.
Note that not m is true both when m is None and when m is 0 (or the zero
timedelta), so a stored minimum of 0 is treated as unset. -/
def pyMinUpd (m : Option Nat) (d : Nat) : Option Nat :=
  match m with
  | none => some d
  | some v => if v = 0 ∨ v > d then some d else some v

/-- Python update pattern: if not m or m < d: m = d, with the same
falsiness of None and 0. -/
def pyMaxUpd (m : Option Nat) (d : Nat) : Option Nat :=
  match m with
  | none => some d
  | some v => if v = 0 ∨ v < d then some d else some v

/-- self.statuses[status] += 1 on a defaultdict(int). -/
def bump (f : Nat → Nat) (st : Nat) : Nat → Nat :=
  fun k => if k = st then f k + 1 else f k

/-- The finally block of ReqBench._request (lines 173 to 179):
request_sent += 1 and the min and max duration updates, executed for
every attempt. -/
def finalizeAttempt (s : Stats) (durMs : Nat) : Stats :=
  { s with request_sent := s.request_sent + 1,
           min_time_request := pyMinUpd s.min_time_request durMs,
           max_time_request := pyMaxUpd s.max_time_request durMs }

/-- ReqBench._request (lines 138 to 184): a transport-level exception is
counted as an error; otherwise the raw status is recorded in the
histogram, a status of at least 500 raises RequestException which is
counted as an error, a status in [200, 500) has its body read and its
byte length folded into data_received and the min and max byte counts
before success += 1, and any other status (below 200) is counted as a
success without reading the body. -/
def record (s : Stats) (a : Attempt) : Stats :=
  match a with
  | .transport durMs => finalizeAttempt { s with errors := s.errors + 1 } durMs
  | .response status bodyLen durMs =>
    let s1 := { s with statuses := bump s.statuses status }
    let s2 :=
      if 500 ≤ status then { s1 with errors := s1.errors + 1 }
      else if 200 ≤ status then
        { s1 with data_received := s1.data_received + bodyLen,
                  min_data_received := pyMinUpd s1.min_data_received bodyLen,
                  max_data_received := pyMaxUpd s1.max_data_received bodyLen,
                  success := s1.success + 1 }
      else { s1 with success := s1.success + 1 }
    finalizeAttempt s2 durMs

/-- The state of the statistics at the cooperative yield points inside
ReqBench._request that occur after the histogram and byte-count updates
but before the success, errors and request_sent increments (the await of
the response context manager exit happens between the two groups). -/
def recordPhase1 (s : Stats) (a : Attempt) : Stats :=
  match a with
  | .transport _ => s
  | .response status bodyLen _ =>
    let s1 := { s with statuses := bump s.statuses status }
    if 500 ≤ status then s1
    else if 200 ≤ status then
      { s1 with data_received := s1.data_received + bodyLen,
                min_data_received := pyMinUpd s1.min_data_received bodyLen,
                max_data_received := pyMaxUpd s1.max_data_received bodyLen }
    else s1

/-- The statistics after a sequence of completed attempts, recorded in
completion order. -/
def runStats (l : List Attempt) : Stats :=
  l.foldl record initStats

lemma record_counter_step (s : Stats) (a : Attempt)
    (h : s.success + s.errors = s.request_sent) :
    (record s a).success + (record s a).errors = (record s a).request_sent := by
  cases a with
  | transport d => simp [record, finalizeAttempt]; omega
  | response st len d =>
    simp only [record, finalizeAttempt]
    split_ifs <;> simp <;> omega

lemma runStats_counter_inv (l : List Attempt) :
    (runStats l).success + (runStats l).errors = (runStats l).request_sent := by
  have main : ∀ (l : List Attempt) (s : Stats),
      s.success + s.errors = s.request_sent →
      (l.foldl record s).success + (l.foldl record s).errors
        = (l.foldl record s).request_sent := by
    intro l
    induction l with
    | nil => intro s h; simpa using h
    | cons a t ih =>
      intro s h
      simpa using ih (record s a) (record_counter_step s a h)
  simpa [runStats] using main l initStats (by simp [initStats])

lemma recordPhase1_counters (s : Stats) (a : Attempt) :
    (recordPhase1 s a).success = s.success ∧
    (recordPhase1 s a).errors = s.errors ∧
    (recordPhase1 s a).request_sent = s.request_sent := by
  cases a with
  | transport d => simp [recordPhase1]
  | response st len d =>
    simp only [recordPhase1]
    split_ifs <;> simp

/-- Claim C1: after each recorded attempt the counters satisfy
success + errors = request_sent, and the same equality also holds at the
intermediate observation point inside an update (recordPhase1), where
the histogram and byte totals are already written but the counters are
not yet touched, so no observation point sees the counter balance
broken. -/
theorem counters_balanced (l : List Attempt) (a : Attempt) :
    (runStats l).success + (runStats l).errors = (runStats l).request_sent ∧
    (recordPhase1 (runStats l) a).success
      + (recordPhase1 (runStats l) a).errors
      = (recordPhase1 (runStats l) a).request_sent := by
  refine ⟨runStats_counter_inv l, ?_⟩
  obtain ⟨h1, h2, h3⟩ := recordPhase1_counters (runStats l) a
  rw [h1, h2, h3]
  exact runStats_counter_inv l

/-- Claim C2 counterexample: an attempt with status 404 (a ClientError
status in [400, 500)) is recorded by incrementing the success counter,
not the error counter, contradicting the claim that every status of at
least 400 increments the error counter. -/
theorem clientError_counted_as_success :
    (runStats [Attempt.response 404 10 1]).success = 1 ∧
    (runStats [Attempt.response 404 10 1]).errors = 0 := by
  constructor <;> rfl

/-- Claim C2 (amended): recording a completed attempt increments the
error counter exactly when the status is at least 500 (or the attempt
failed at transport level); every response with status below 500,
including the ClientError range [400, 500), increments the success
counter instead. -/
theorem errors_iff_status_ge_500 (s : Stats) (st len dur : Nat) :
    (record s (.response st len dur)).errors
      = s.errors + (if 500 ≤ st then 1 else 0) ∧
    (record s (.response st len dur)).success
      = s.success + (if 500 ≤ st then 0 else 1) ∧
    (record s (.transport dur)).errors = s.errors + 1 ∧
    (record s (.transport dur)).success = s.success := by
  simp only [record, finalizeAttempt]
  split_ifs <;> simp_all

/-- ReqBench.avg_data_received (lines 121 to 123):
int(self.data_received / self.request_sent) with no guard; Python
raises ZeroDivisionError when request_sent is 0.  The float division
truncated by int is modelled as natural division. -/
def avg_data_received (s : Stats) : Except PyErr Nat :=
  if s.request_sent = 0 then .error .zeroDivisionError
  else .ok (s.data_received / s.request_sent)

lemma runStats_request_sent (l : List Attempt) :
    (runStats l).request_sent = l.length := by
  have main : ∀ (l : List Attempt) (s : Stats),
      (l.foldl record s).request_sent = s.request_sent + l.length := by
    intro l
    induction l with
    | nil => intro s; simp
    | cons a t ih =>
      intro s
      have hrec : (record s a).request_sent = s.request_sent + 1 := by
        cases a <;> simp only [record, finalizeAttempt] <;>
          (try split_ifs) <;> simp
      simp [ih (record s a), hrec]
      omega
  simpa [runStats, initStats] using main l initStats

/-- Claim C3 counterexample: for a run with zero recorded attempts the
average-byte-size computation is not guarded; it performs the division
anyway and raises ZeroDivisionError, contradicting the claim that the
division is guarded and produces neither a crash nor a silent zero. -/
theorem avg_zero_run_zero_division :
    avg_data_received (runStats []) = Except.error PyErr.zeroDivisionError := rfl

/-- Claim C3 (amended): the average-byte-size metric equals
bytes_total / total_requests whenever at least one attempt was
recorded, but the division is unguarded: evaluating it after a run with
zero recorded attempts raises ZeroDivisionError. -/
theorem avg_data_received_run (l : List Attempt) :
    avg_data_received (runStats l)
      = if l.length = 0 then Except.error PyErr.zeroDivisionError
        else Except.ok ((runStats l).data_received / l.length) := by
  simp [avg_data_received, runStats_request_sent l]

/-- Claim C7 counterexample: a response with status 404 has its body
read and its 7 bytes added to the byte totals even though 404 is not in
[100, 400), and a response with status 150 contributes no bytes even
though 150 is in [100, 400); both contradict the claim that bytes are
counted exactly for statuses in [100, 400). -/
theorem bytes_read_window_counterexample :
    (runStats [Attempt.response 404 7 1]).data_received = 7 ∧
    (runStats [Attempt.response 150 7 1]).data_received = 0 := by
  constructor <;> rfl

/-- Claim C7 (amended): recording a completed attempt adds its body
length to the received-byte total exactly when its status lies in
[200, 500); statuses below 200, statuses of 500 and above, and
transport failures contribute no bytes. -/
theorem bytes_counted_iff_2xx_4xx (s : Stats) (st len dur : Nat) :
    (record s (.response st len dur)).data_received
      = s.data_received + (if 200 ≤ st ∧ st < 500 then len else 0) ∧
    (record s (.transport dur)).data_received = s.data_received := by
  simp only [record, finalizeAttempt]
  split_ifs <;> simp_all <;> omega

/-- Duration of an attempt in milliseconds. -/
def durOf : Attempt → Nat
  | .transport d => d
  | .response _ _ d => d

/-- Body length of an attempt (0 for transport failures). -/
def lenOf : Attempt → Nat
  | .transport _ => 0
  | .response _ len _ => len

/-- Whether _request reads the body and folds its length into the byte
statistics: exactly for statuses in [200, 500). -/
def countsBytes : Attempt → Bool
  | .transport _ => false
  | .response st _ _ => decide (200 ≤ st) && decide (st < 500)

/-- Contribution of one attempt to the success counter. -/
def succInc : Attempt → Nat
  | .transport _ => 0
  | .response st _ _ => if 500 ≤ st then 0 else 1

/-- Contribution of one attempt to the error counter. -/
def errInc : Attempt → Nat
  | .transport _ => 1
  | .response st _ _ => if 500 ≤ st then 1 else 0

/-- Effect of one attempt on the status histogram. -/
def statusBump : Attempt → (Nat → Nat) → (Nat → Nat)
  | .transport _, f => f
  | .response st _ _, f => bump f st

lemma record_fields (s : Stats) (a : Attempt) :
    record s a =
      { request_sent := s.request_sent + 1,
        success := s.success + succInc a,
        errors := s.errors + errInc a,
        data_received :=
          s.data_received + (if countsBytes a then lenOf a else 0),
        min_data_received :=
          if countsBytes a then pyMinUpd s.min_data_received (lenOf a)
          else s.min_data_received,
        max_data_received :=
          if countsBytes a then pyMaxUpd s.max_data_received (lenOf a)
          else s.max_data_received,
        min_time_request := pyMinUpd s.min_time_request (durOf a),
        max_time_request := pyMaxUpd s.max_time_request (durOf a),
        statuses := statusBump a s.statuses } := by
  cases a with
  | transport d =>
    simp [record, finalizeAttempt, succInc, errInc, countsBytes, lenOf,
      durOf, statusBump]
  | response st len d =>
    by_cases h5 : 500 ≤ st
    · have h5' : ¬ st < 500 := by omega
      simp [record, finalizeAttempt, succInc, errInc, countsBytes, lenOf,
        durOf, statusBump, h5, h5']
    · by_cases h2 : 200 ≤ st
      · have h5' : st < 500 := by omega
        simp [record, finalizeAttempt, succInc, errInc, countsBytes, lenOf,
          durOf, statusBump, h5, h2, h5']
      · simp [record, finalizeAttempt, succInc, errInc, countsBytes, lenOf,
          durOf, statusBump, h5, h2]

lemma pyMaxUpd_getD (m : Option Nat) (d : Nat) :
    pyMaxUpd m d = some (max (m.getD 0) d) := by
  rcases m with _ | v
  · simp [pyMaxUpd]
  · simp only [pyMaxUpd, Option.getD_some]
    split_ifs with h
    · congr 1
      omega
    · congr 1
      omega

lemma pyMaxUpd_comm (m : Option Nat) (d1 d2 : Nat) :
    pyMaxUpd (pyMaxUpd m d1) d2 = pyMaxUpd (pyMaxUpd m d2) d1 := by
  simp only [pyMaxUpd_getD, Option.getD_some]
  congr 1
  omega

lemma pyMinUpd_pos (m : Option Nat) (d : Nat) (_hd : 0 < d) :
    pyMinUpd m d
      = some (if m.getD 0 = 0 then d else min (m.getD 0) d) := by
  rcases m with _ | v
  · simp [pyMinUpd]
  · simp only [pyMinUpd, Option.getD_some]
    split_ifs <;> (congr 1 <;> omega)

lemma pyMinUpd_comm (m : Option Nat) {d1 d2 : Nat}
    (h1 : 0 < d1) (h2 : 0 < d2) :
    pyMinUpd (pyMinUpd m d1) d2 = pyMinUpd (pyMinUpd m d2) d1 := by
  rw [pyMinUpd_pos m d1 h1, pyMinUpd_pos _ d2 h2,
    pyMinUpd_pos m d2 h2, pyMinUpd_pos _ d1 h1]
  simp only [Option.getD_some]
  congr 1
  split_ifs <;> omega

lemma bump_comm (f : Nat → Nat) (a b : Nat) :
    bump (bump f a) b = bump (bump f b) a := by
  funext k
  simp only [bump]
  by_cases ha : k = a <;> by_cases hb : k = b <;>
    simp [ha, hb] <;> split_ifs <;> simp_all

lemma statusBump_comm (x y : Attempt) (f : Nat → Nat) :
    statusBump y (statusBump x f) = statusBump x (statusBump y f) := by
  cases x <;> cases y <;> simp [statusBump, bump_comm]

lemma record_comm (z : Stats) (x y : Attempt)
    (hx : 0 < durOf x) (hy : 0 < durOf y)
    (hlx : countsBytes x = true → 0 < lenOf x)
    (hly : countsBytes y = true → 0 < lenOf y) :
    record (record z x) y = record (record z y) x := by
  simp only [record_fields, Stats.mk.injEq]
  refine ⟨trivial, by omega, by omega, ?_, ?_, ?_, ?_, ?_, ?_⟩
  · exact Nat.add_right_comm _ _ _
  · by_cases hcx : countsBytes x <;> by_cases hcy : countsBytes y <;>
      simp [hcx, hcy]
    exact pyMinUpd_comm _ (hlx hcx) (hly hcy)
  · by_cases hcx : countsBytes x <;> by_cases hcy : countsBytes y <;>
      simp [hcx, hcy, pyMaxUpd_comm]
  · exact pyMinUpd_comm _ hx hy
  · exact pyMaxUpd_comm _ _ _
  · exact statusBump_comm x y z.statuses

/-- Claim C5 counterexample: the two-element lists below are
permutations of each other, yet the final minimum byte count differs
between the two recording orders (a recorded byte length of 0 is
treated as unset by the Python falsiness test not self.min_data_received,
so a later attempt overwrites it), contradicting the claim that any
permutation yields identical final statistics. -/
theorem min_bytes_order_dependent :
    List.Perm [Attempt.response 200 0 1, Attempt.response 200 5 1]
      [Attempt.response 200 5 1, Attempt.response 200 0 1] ∧
    (runStats [Attempt.response 200 0 1,
               Attempt.response 200 5 1]).min_data_received
      ≠ (runStats [Attempt.response 200 5 1,
                   Attempt.response 200 0 1]).min_data_received := by
  constructor
  · exact List.Perm.swap _ _ _
  · decide

/-- Claim C5 (amended): recording a finite multiset of outcomes in any
permutation yields identical final run statistics, provided every
attempt has a positive duration and every attempt whose bytes are
counted has a positive body length; with a zero recorded byte length or
duration the stored minimum is order dependent. -/
theorem runStats_perm_invariant (l1 l2 : List Attempt) (hp : l1.Perm l2)
    (hpos : ∀ a ∈ l1, 0 < durOf a ∧ (countsBytes a = true → 0 < lenOf a)) :
    runStats l1 = runStats l2 := by
  unfold runStats
  exact hp.foldl_eq'
    (fun x hx y hy z =>
      record_comm z x y (hpos x hx).1 (hpos y hy).1
        (hpos x hx).2 (hpos y hy).2)
    initStats

theorem runStats_perm_invariant_witness :
    runStats [Attempt.response 200 3 1, Attempt.transport 2]
      = runStats [Attempt.transport 2, Attempt.response 200 3 1] :=
  runStats_perm_invariant _ _ (List.Perm.swap _ _ _) (by decide)

/-- A Python dict of strings, modelled as an insertion-ordered
association list with unique keys. -/
abbrev Dict := List (String × String)

/-- Python dict assignment d[k] = v: an existing key keeps its position
and gets the new value; a new key is appended. -/
def dictSet (d : Dict) (k v : String) : Dict :=
  if d.any (fun kv => kv.1 == k) then
    d.map (fun kv => if kv.1 == k then (k, v) else kv)
  else d ++ [(k, v)]

/-- Python str.split(sep) for a one-character separator, on the
character list of the string: consecutive separators produce empty
tokens and the empty string yields one empty token. -/
def splitOnChar (c : Char) : List Char → List (List Char)
  | [] => [[]]
  | ch :: rest =>
    match splitOnChar c rest with
    | [] => [[]]
    | t :: ts => if ch = c then [] :: t :: ts else (ch :: t) :: ts

/-- Python str.rstrip(): drop trailing whitespace. -/
def pyRstrip (s : String) : String :=
  ⟨(s.data.reverse.dropWhile Char.isWhitespace).reverse⟩

/-- Python str.split(sep) on a String. -/
def pySplit (sep : Char) (s : String) : List String :=
  (splitOnChar sep s.data).map (fun cs => ⟨cs⟩)

/-- The token split of ReqBench._get_data_from_file (lines 186 to 189):
the line is rstripped, split on spaces, and each token split on the
colon. -/
def splitTokens (s : String) : List (List String) :=
  (pySplit ' ' (pyRstrip s)).map (fun t => pySplit ':' t)

/-- ReqBench._get_data_from_file applied to one line: Python dict(...)
accepts the split exactly when every token splits into two parts (one
colon); otherwise it raises ValueError, modelled as none. -/
def getDataFromFile (line : String) : Option Dict :=
  let parts := splitTokens line
  if parts.all (fun p => p.length = 2) then
    some (parts.foldl (fun d p => dictSet d (p.getD 0 "") (p.getD 1 "")) [])
  else none

/-- The data-pulling loop of ReqBench.run (lines 202 to 215) for a
file-backed run: fuel counts remaining iterations of
for _ in range(self.limit); pos is the file cursor.  Within bounds the
line is parsed (a ValueError becomes UserException, aborting the run);
at end of file the iteration catches StopIteration, seeks to 0 and
continues, producing no record for that iteration. -/
def runFileData (lines : List String) : Nat → Nat → Except PyErr (List Dict)
  | _, 0 => .ok []
  | pos, n + 1 =>
    if h : pos < lines.length then
      match getDataFromFile (lines.get ⟨pos, h⟩) with
      | none => .error .userException
      | some d => (runFileData lines (pos + 1) n).map (fun rest => d :: rest)
    else
      runFileData lines 0 n

/-- ReqBench.run (lines 191 to 218): the loop runs range(self.limit)
iterations; with limit None, range(None) raises TypeError before any
request is issued.  Without a data file each iteration uses self.data,
modelled by staticData. -/
def benchRun (limit : Option Nat) (file : Option (List String))
    (staticData : Dict) : Except PyErr (List Dict) :=
  match limit with
  | none => .error .typeError
  | some n =>
    match file with
    | some lines => runFileData lines 0 n
    | none => .ok (List.replicate n staticData)

/-- The list of records alternates between d1 and d2, starting with d2
when b is true and with d1 otherwise. -/
def alternates (d1 d2 : Dict) : Bool → List Dict → Prop
  | _, [] => True
  | b, d :: rest => d = (if b then d2 else d1) ∧ alternates d1 d2 (!b) rest

lemma runFileData_twoLine (s1 s2 : String) (d1 d2 : Dict)
    (h1 : getDataFromFile s1 = some d1)
    (h2 : getDataFromFile s2 = some d2) :
    ∀ (n pos : Nat), pos ≤ 2 →
      ∃ out, runFileData [s1, s2] pos n = .ok out ∧
        alternates d1 d2 (pos == 1) out := by
  intro n
  induction n with
  | zero =>
    intro pos hp
    exact ⟨[], rfl, trivial⟩
  | succ n ih =>
    intro pos hp
    interval_cases pos
    · obtain ⟨out1, hout1, halt1⟩ := ih 1 (by omega)
      refine ⟨d1 :: out1, ?_, ?_, ?_⟩
      · simp [runFileData, h1, hout1, Except.map]
      · simp
      · simpa using halt1
    · obtain ⟨out1, hout1, halt1⟩ := ih 2 (by omega)
      refine ⟨d2 :: out1, ?_, ?_, ?_⟩
      · simp [runFileData, h2, hout1, Except.map]
      · simp
      · simpa using halt1
    · obtain ⟨out1, hout1, halt1⟩ := ih 0 (by omega)
      refine ⟨out1, ?_, ?_⟩
      · simpa [runFileData] using hout1
      · simpa using halt1

/-- Claim C4: a file-backed run pulls lines in order, parses each into
key-value fields, and at end of file rewinds the cursor to the start
instead of stopping; with a two-line file the produced records
alternate between line 1 and line 2 for any number of loop iterations
(the wrap-around iteration itself produces no record, matching the
continue in ReqBench.run). -/
theorem twoLine_file_alternates (s1 s2 : String) (d1 d2 : Dict)
    (h1 : getDataFromFile s1 = some d1)
    (h2 : getDataFromFile s2 = some d2) (n : Nat) :
    ∃ out, runFileData [s1, s2] 0 n = .ok out ∧
      alternates d1 d2 false out :=
  runFileData_twoLine s1 s2 d1 d2 h1 h2 n 0 (by omega)

theorem twoLine_file_alternates_witness :
    ∃ out, runFileData ["a:1", "b:2"] 0 7 = Except.ok out ∧
      alternates [("a", "1")] [("b", "2")] false out :=
  twoLine_file_alternates "a:1" "b:2" [("a", "1")] [("b", "2")]
    (by decide) (by decide) 7

/-- Claim C6: whenever the cursor of a file-backed run reaches a line
that does not parse into tokens each holding exactly one colon, the
whole run aborts with the UserException raised for a wrong file format;
the error value carries no records, so the line is not skipped and no
further records are produced. -/
theorem malformed_line_aborts (lines : List String) (pos n : Nat)
    (h : pos < lines.length)
    (hbad : getDataFromFile (lines.get ⟨pos, h⟩) = none) :
    runFileData lines pos (n + 1) = Except.error PyErr.userException := by
  simp only [List.get_eq_getElem] at hbad
  simp [runFileData, h, hbad]

theorem malformed_line_aborts_witness :
    runFileData ["a:b c"] 0 1 = Except.error PyErr.userException :=
  malformed_line_aborts ["a:b c"] 0 0 (by decide) (by decide)

/-- Claim C8 (evaluation of the code at the failing configuration):
with no request-count limit configured, ReqBench.run does not loop
forever admitting attempts; range(None) raises TypeError immediately,
so the run fails before issuing any request, whatever the data source
is. -/
theorem run_without_limit_raises (file : Option (List String))
    (staticData : Dict) :
    benchRun none file staticData = Except.error PyErr.typeError := rfl

/-- Python dict.update(c): assign every pair of c in order. -/
def dictUpdate (d c : Dict) : Dict :=
  c.foldl (fun acc kv => dictSet acc kv.1 kv.2) d

/-- The module-level _DEFAULT_HEADERS dictionary (lines 31 to 33 of
src/reqbench.py). -/
def DEFAULT_HEADERS : Dict := [("User-Agent", "Reqbench")]

/-- ReqBench.__init__ (lines 98 to 100): self.headers = _DEFAULT_HEADERS
binds the shared module-level dictionary without copying, and
if headers: self.headers.update(headers) then writes through that alias
into the module default (a None or empty custom dict is falsy and
triggers no update).  The value is the pair (instance headers, module
defaults after construction); after a non-empty update both are the
same updated dictionary. -/
def initHeaders (defaults : Dict) (custom : Option Dict) : Dict × Dict :=
  match custom with
  | none => (defaults, defaults)
  | some [] => (defaults, defaults)
  | some (kv :: rest) =>
    let d := dictUpdate defaults (kv :: rest)
    (d, d)

/-- The module default headers after a sequence of ReqBench
constructions, each with its optional custom header dict. -/
def constructSeq (defaults : Dict) (cs : List (Option Dict)) : Dict :=
  cs.foldl (fun d c => (initHeaders d c).2) defaults

/-- The dictionary has an entry for key k. -/
def hasKey (d : Dict) (k : String) : Prop :=
  (d.any fun kv => kv.1 == k) = true

lemma dictUpdate_cons (d : Dict) (kv : String × String) (rest : Dict) :
    dictUpdate d (kv :: rest) = dictUpdate (dictSet d kv.1 kv.2) rest := rfl

lemma hasKey_dictSet_self (d : Dict) (k v : String) :
    hasKey (dictSet d k v) k := by
  unfold dictSet hasKey
  split_ifs with h
  · simp only [List.any_eq_true] at h ⊢
    obtain ⟨kv, hkv, hk⟩ := h
    exact ⟨(k, v), List.mem_map.2 ⟨kv, hkv, by simp [hk]⟩, by simp⟩
  · simp

lemma hasKey_dictSet_mono (d : Dict) (k k2 v2 : String)
    (h : hasKey d k) : hasKey (dictSet d k2 v2) k := by
  unfold dictSet hasKey at *
  split_ifs with hc
  · simp only [List.any_eq_true] at h ⊢
    obtain ⟨kv, hkv, hk⟩ := h
    by_cases he : (kv.1 == k2) = true
    · refine ⟨(k2, v2), List.mem_map.2 ⟨kv, hkv, by simp [he]⟩, ?_⟩
      simp only [beq_iff_eq] at hk he ⊢
      rw [← he]
      exact hk
    · refine ⟨kv, List.mem_map.2 ⟨kv, hkv, ?_⟩, hk⟩
      simp [he]
  · simp only [List.any_eq_true] at h ⊢
    obtain ⟨kv, hkv, hk⟩ := h
    exact ⟨kv, List.mem_append.2 (Or.inl hkv), hk⟩

lemma hasKey_dictUpdate_of_left (d c : Dict) (k : String)
    (h : hasKey d k) : hasKey (dictUpdate d c) k := by
  induction c generalizing d with
  | nil => simpa [dictUpdate] using h
  | cons kv rest ih =>
    rw [dictUpdate_cons]
    exact ih _ (hasKey_dictSet_mono _ _ _ _ h)

lemma hasKey_dictUpdate_of_mem (d c : Dict) (k v : String)
    (h : (k, v) ∈ c) : hasKey (dictUpdate d c) k := by
  induction c generalizing d with
  | nil => cases h
  | cons kv rest ih =>
    rw [dictUpdate_cons]
    rcases List.mem_cons.1 h with heq | hmem
    · have : kv.1 = k := by rw [← heq]
      rw [this] at *
      exact hasKey_dictUpdate_of_left _ _ _ (hasKey_dictSet_self _ _ _)
    · exact ih _ hmem

lemma hasKey_initHeaders_snd (d : Dict) (c : Option Dict) (k : String)
    (h : hasKey d k) : hasKey (initHeaders d c).2 k := by
  rcases c with _ | c
  · simpa [initHeaders] using h
  · rcases c with _ | ⟨kv, r⟩
    · simpa [initHeaders] using h
    · simpa [initHeaders] using hasKey_dictUpdate_of_left _ _ _ h

lemma hasKey_initHeaders_fst (d : Dict) (c : Option Dict) (k : String)
    (h : hasKey d k) : hasKey (initHeaders d c).1 k := by
  rcases c with _ | c
  · simpa [initHeaders] using h
  · rcases c with _ | ⟨kv, r⟩
    · simpa [initHeaders] using h
    · simpa [initHeaders] using hasKey_dictUpdate_of_left _ _ _ h

lemma hasKey_constructSeq (d : Dict) (cs : List (Option Dict)) (k : String)
    (h : hasKey d k) : hasKey (constructSeq d cs) k := by
  induction cs generalizing d with
  | nil => simpa [constructSeq] using h
  | cons c rest ih =>
    have hstep : constructSeq d (c :: rest)
        = constructSeq (initHeaders d c).2 rest := rfl
    rw [hstep]
    exact ih _ (hasKey_initHeaders_snd _ _ _ h)

/-- Claim C10: constructing a ReqBench instance with a non-empty custom
header dict writes the custom headers through the shared alias into the
module-level default dict, so any instance constructed later (with any
custom headers of its own) observes instance headers that still carry
every key set by the earlier construction; and a construction with no
custom headers (None or an empty dict) leaves the defaults unchanged. -/
theorem default_headers_polluted (d0 : Dict) (cs1 cs2 : List (Option Dict))
    (c : Dict) (c2 : Option Dict) (k v : String) (hkv : (k, v) ∈ c) :
    hasKey (initHeaders (constructSeq d0 (cs1 ++ some c :: cs2)) c2).1 k
      ∧ ∀ d, initHeaders d none = (d, d)
        ∧ initHeaders d (some []) = (d, d) := by
  constructor
  · have h1 : constructSeq d0 (cs1 ++ some c :: cs2)
        = constructSeq (initHeaders (constructSeq d0 cs1) (some c)).2 cs2 := by
      simp [constructSeq, List.foldl_append]
    rw [h1]
    apply hasKey_initHeaders_fst
    apply hasKey_constructSeq
    rcases c with _ | ⟨kv, r⟩
    · cases hkv
    · simpa [initHeaders] using hasKey_dictUpdate_of_mem _ _ k v hkv
  · intro d
    exact ⟨rfl, rfl⟩

theorem default_headers_polluted_witness :
    hasKey (initHeaders (constructSeq DEFAULT_HEADERS
        ([] ++ some [("X-Token", "t")] :: [none]))
        (some [("Other", "o")])).1 "X-Token"
      ∧ initHeaders DEFAULT_HEADERS none
          = (DEFAULT_HEADERS, DEFAULT_HEADERS)
      ∧ initHeaders DEFAULT_HEADERS (some [])
          = (DEFAULT_HEADERS, DEFAULT_HEADERS) :=
  ⟨(default_headers_polluted DEFAULT_HEADERS [] [none] [("X-Token", "t")]
      (some [("Other", "o")]) "X-Token" "t" (by decide)).1,
   (default_headers_polluted DEFAULT_HEADERS [] [none] [("X-Token", "t")]
      (some [("Other", "o")]) "X-Token" "t" (by decide)).2 DEFAULT_HEADERS⟩

end Reqbench
